import Mathlib

/-!
Shallow embedding of the core of the RoyDocumentation satellite-composite
scripts (`src/roy-scripts/`): the date-range / file-manifest resolver, the
swath point filters, the region-overlap test, the accumulation loop and the
masking finalizer.  Machine integers are modelled as `Nat`; the floating
point values compared by the scripts are modelled as `ℚ` (all comparisons in
the scripts are order comparisons on exactly representable constants).
-/

/-- Modelled from the spec: `roylib.isleap` (the `roylib` module is not part
of the repository sources; the spec gives the rule: a year has 366 days iff
divisible by 4 and (not divisible by 100 or divisible by 400)). -/
def isleap (year : Nat) : Bool :=
  (year % 4 == 0) && (!(year % 100 == 0) || (year % 400 == 0))

/-- Python truthiness of a function object: `bool(f)` is `True` for every
function `f`.  Used to embed the condition `if (isleap):` in
`CompMBChla.py` line 238 (and `CompMWSST.py` line 257,
`CompMBChlamday.py` line 242), which references the function object
without calling it. -/
def pyFunctionTruthy (_f : Nat → Bool) : Bool := true

/-- `CompMBChla.py` lines 237-241: last day of the start year for the
wraparound branch.  The Python condition is `if (isleap):` — the function
object itself, not `isleap(startYear)` — so the argument is never
consulted. -/
def endday (_startYear : Nat) : Nat :=
  if pyFunctionTruthy isleap then 366 else 365

/-- Python `str.replace` (every non-overlapping occurrence, left to right)
on character lists, with a fuel argument for structural recursion (any
fuel at least the length of the subject list is enough, since each step
consumes at least one subject character).  Written out because core
`String.replace` does not reduce in the kernel. -/
def pyReplaceAux (pat rep : List Char) : Nat → List Char → List Char
  | _, [] => []
  | 0, s => s
  | fuel + 1, c :: rest =>
    if pat.isPrefixOf (c :: rest) && !pat.isEmpty then
      rep ++ pyReplaceAux pat rep fuel (List.drop pat.length (c :: rest))
    else
      c :: pyReplaceAux pat rep fuel rest

/-- Python `s.replace(pat, rep)` on strings. -/
def pyReplace (s pat rep : String) : String :=
  String.mk (pyReplaceAux pat.data rep.data s.data.length s.data)

/-- Python `str(n).rjust(3, '0')` as used for the day-of-year field. -/
def rjust3 (n : Nat) : String :=
  let s := toString n
  String.mk (List.replicate (3 - s.length) '0') ++ s

/-- One glob search performed by a composite script: the directory the
script `chdir`s into and the wildcard pattern handed to `glob.glob`. -/
structure GlobSearch where
  dir : String
  pattern : String
deriving DecidableEq, Repr

/-- `CompMBChlamday.py` lines 157-297 (file-gathering control flow): the
ordered list of glob searches the script performs, given `dataDir`,
`endyearC` (argv), `endDoy` and `startDoy`.  Line 160 sets
`startYearC = endyearC`; the `else` branch (lines 238-282) is the
wraparound branch: `dataDir1 = dataDir.replace(endyearC, startYearC)`,
days `startDoy .. endday` with the `startYearC` pattern in `dataDir1`,
then days `1 .. endDoy` with the `endyearC` pattern in `dataDir`. -/
def mdayFilePlan (dataDir endyearC : String) (endDoy startDoy : Nat)
    (dtype : String) : List GlobSearch :=
  let startYearC := endyearC
  if endDoy > startDoy then
    (List.range' startDoy (endDoy + 1 - startDoy)).map (fun doy =>
      { dir := dataDir
        pattern := "MB" ++ endyearC ++ rjust3 doy ++ "*" ++ dtype ++ ".nc" })
  else
    let dataDir1 := pyReplace dataDir endyearC startYearC
    let lastDay := endday 0
    ((List.range' startDoy (lastDay + 1 - startDoy)).map (fun doy =>
      { dir := dataDir1
        pattern := "MB" ++ startYearC ++ rjust3 doy ++ "*" ++ dtype ++ ".nc" }))
    ++ ((List.range' 1 endDoy).map (fun doy =>
      { dir := dataDir
        pattern := "MB" ++ endyearC ++ rjust3 doy ++ "*" ++ dtype ++ ".nc" }))

/-- Days before January 1 of `y` in the proleptic Gregorian calendar
(CPython `datetime._days_before_year`), the ordinal arithmetic behind
`datetime(endYear, 1, 1) + timedelta(...)` in `CompMBChla.py` lines
165-168. -/
def daysBeforeYear (y : Nat) : Nat :=
  365 * (y - 1) + (y - 1) / 4 - (y - 1) / 100 + (y - 1) / 400

/-- Proleptic Gregorian ordinal of day `doy` of year `y`
(`datetime(y, 1, 1) + timedelta(doy - 1)` has this `toordinal()`). -/
def toOrdinal (y doy : Nat) : Nat := daysBeforeYear y + doy

/-- Inverse of `toOrdinal` (CPython `datetime._ord2ymd`, reduced to
(year, day-of-year)): the year and day-of-year of a Gregorian ordinal.
The `n1 == 4 || n100 == 4` branch is December 31 of a leap year. -/
def ordinalToYearDoy (ord : Nat) : Nat × Nat :=
  let n := ord - 1
  let n400 := n / 146097
  let r400 := n % 146097
  let n100 := r400 / 36524
  let r100 := r400 % 36524
  let n4 := r100 / 1461
  let r4 := r100 % 1461
  let n1 := r4 / 365
  let r1 := r4 % 365
  let year := n400 * 400 + n100 * 100 + n4 * 4 + n1 + 1
  if n1 == 4 || n100 == 4 then (year - 1, 366) else (year, r1 + 1)

/-- `CompMBChla.py` lines 165-173: `myDateEnd = datetime(endYear,1,1) +
timedelta(endDoy-1)`; `myDateStart = myDateEnd + timedelta(-(interval-1))`;
`startDoy = int(myDateStart.strftime("%j"))`;
`startYear = myDateStart.year`.  Returns (start year, start day-of-year). -/
def compStartDate (endYear endDoy interval : Nat) : Nat × Nat :=
  ordinalToYearDoy (toOrdinal endYear endDoy - (interval - 1))

namespace MB

/-- `makeSST1daynewMB.py` lines 257-260 (identical in
`makeChla1daynewMB.py` lines 165-168): bounds of the MB Pacific region. -/
def latmax : ℚ := 65
def latmin : ℚ := -45
def lonmax : ℚ := 320
def lonmin : ℚ := 120

end MB

namespace MW

/-- `makeSST1daynewMW.py` lines 261-264: bounds of the MW coastal region. -/
def latmax : ℚ := 51
def latmin : ℚ := 22
def lonmax : ℚ := 255
def lonmin : ℚ := 205

end MW

/-- One flattened swath pixel row as built by `np.hstack((longitude,
latitude, sst))` in `makeSST1daynewMB.py`, paired with its `qual_sst`
value (the `qualTest` boolean row mask is indexed in step with the data
rows). -/
structure SstRow where
  lon : ℚ
  lat : ℚ
  sst : ℚ
  qual : ℚ
deriving DecidableEq, Repr

/-- `makeSST1daynewMB.py` lines 402-407: the Day N per-pixel filter chain
(`dataOut = dataOut[qualTest]; ... dataOut[dataOut[:, 1] <= latmax]`).
Note the chain has no `dataOut[:, 1] >= latmin` step. -/
def sstDayNFilter (rows : List SstRow) : List SstRow :=
  (((((rows.filter (fun r => decide (r.qual < 3))).filter
      (fun r => decide (r.sst > -2))).filter
      (fun r => decide (r.lon > -400))).filter
      (fun r => decide (r.lon ≥ MB.lonmin))).filter
      (fun r => decide (r.lon ≤ MB.lonmax))).filter
      (fun r => decide (r.lat ≤ MB.latmax))

/-- `makeSST1daynewMB.py` lines 488-494: the Day N+1 per-pixel filter
chain, which does include the `dataOut[:, 1] >= latmin` step. -/
def sstDayN1Filter (rows : List SstRow) : List SstRow :=
  ((((((rows.filter (fun r => decide (r.qual < 3))).filter
      (fun r => decide (r.sst > -2))).filter
      (fun r => decide (r.lon > -400))).filter
      (fun r => decide (r.lon ≥ MB.lonmin))).filter
      (fun r => decide (r.lon ≤ MB.lonmax))).filter
      (fun r => decide (r.lat ≥ MB.latmin))).filter
      (fun r => decide (r.lat ≤ MB.latmax))

/-- One flattened ocean-color pixel row (`np.hstack((longitude, latitude,
chlor_a))` in `makeChla1daynewMB.py`). -/
structure ChlaRow where
  lon : ℚ
  lat : ℚ
  chla : ℚ
deriving DecidableEq, Repr

/-- `makeChla1daynewMB.py` lines 299-304: the chlorophyll per-pixel filter
chain, including the `dataOut[:, 0] > -400` unset-navigation sanity
filter. -/
def chlaFilterChain (lonmin lonmax latmin latmax : ℚ)
    (rows : List ChlaRow) : List ChlaRow :=
  (((((rows.filter (fun r => decide (r.chla > 0))).filter
      (fun r => decide (r.lon > -400))).filter
      (fun r => decide (r.lon ≥ lonmin))).filter
      (fun r => decide (r.lon ≤ lonmax))).filter
      (fun r => decide (r.lat ≥ latmin))).filter
      (fun r => decide (r.lat ≤ latmax))

/-- The same chain with the `dataOut[:, 0] > -400` sanity step omitted,
for comparison with `chlaFilterChain`. -/
def chlaFilterChainNoSanity (lonmin lonmax latmin latmax : ℚ)
    (rows : List ChlaRow) : List ChlaRow :=
  ((((rows.filter (fun r => decide (r.chla > 0))).filter
      (fun r => decide (r.lon ≥ lonmin))).filter
      (fun r => decide (r.lon ≤ lonmax))).filter
      (fun r => decide (r.lat ≥ latmin))).filter
      (fun r => decide (r.lat ≤ latmax))

/-- `makeChla1daynewMB.py` lines 265-267 (identically lines 362-364 and in
the SST scripts): the per-axis swath/region overlap test
`goodLon = goodLon1 or goodLon2`. -/
def goodLonAccept (dataLonMin dataLonMax lonmin lonmax : ℚ) : Bool :=
  (decide (dataLonMin < lonmin) && decide (dataLonMax ≥ lonmin)) ||
  (decide (dataLonMin ≥ lonmin) && decide (dataLonMin ≤ lonmax))

/-- The overlap acceptance condition in the words of the spec: the target
minimum is strictly inside the swath interval (strictly above its minimum,
no higher than its maximum), or the swath minimum lies within
`[targetMin, targetMax]`. -/
def specOverlapAccept (swMin swMax tMin tMax : ℚ) : Prop :=
  (swMin < tMin ∧ tMin ≤ swMax) ∨ (tMin ≤ swMin ∧ swMin ≤ tMax)

/-- Cell index of the (4401, 8001) composite grids preallocated by
`np.zeros((4401, 8001), ...)` in `CompMBChla.py` lines 199-200. -/
def GridIdx : Type := Fin 4401 × Fin 8001

/-- Chlorophyll validity predicate (spec table: `value > 0`). -/
def chlaValid (x : ℚ) : Bool := decide (0 < x)

/-- Modelled from the spec: `roylib.meanVar(mean, num, array)` (the
`roylib` module is not in the repository sources).  Spec 4.3: for every
cell where the observation satisfies the validity predicate,
`sum[cell] += observation[cell]` and `count[cell] += 1`; otherwise no
change. -/
def meanVar (valid : ℚ → Bool) (st : (GridIdx → ℚ) × (GridIdx → Nat))
    (obs : GridIdx → ℚ) : (GridIdx → ℚ) × (GridIdx → Nat) :=
  (fun i => if valid (obs i) then st.1 i + obs i else st.1 i,
   fun i => if valid (obs i) then st.2 i + 1 else st.2 i)

/-- `np.zeros((4401, 8001), np.single)`: zero-filled running sum. -/
def initMean : GridIdx → ℚ := fun _ => 0

/-- `np.zeros((4401, 8001), dtype=np.int32)`: zero-filled count. -/
def initNum : GridIdx → Nat := fun _ => 0

/-- The accumulation of a list of daily observation grids into the
(sum, count) state, in manifest order (`for fName in fileList: ...
mean, num = meanVar(mean, num, chla)`). -/
def accumGrids (valid : ℚ → Bool) (grids : List (GridIdx → ℚ))
    (st : (GridIdx → ℚ) × (GridIdx → Nat)) :
    (GridIdx → ℚ) × (GridIdx → Nat) :=
  grids.foldl (meanVar valid) st

/-- `CompMBChla.py` line 297:
`mean = ma.array(mean, mask=(num==0), fill_value=-9999999.)`.  Each cell
of the result is its filled value paired with its mask flag: a masked
array fills masked cells with the fill value and leaves unmasked cells at
their data value. -/
def finalizeComposite (mean : GridIdx → ℚ) (num : GridIdx → Nat) :
    GridIdx → ℚ × Bool :=
  fun i => if num i = 0 then ((-9999999 : ℚ), true) else (mean i, false)

/-- `makeChla1daynewMB.py` lines 236-315, the working-directory effect of
handling one discovered swath file: for `hod > 10` the file is staged
(`shutil.copyfile` into the working directory); if the `Dataset` open
raises `IOError` the loop does `print(...); continue`; otherwise the
swath is read, filtered and accumulated (which touches no staged file)
and then `safe_remove(fileName)` deletes the staged copy.  The state is
the list of staged files in the working directory. -/
def processSwath (workdirFiles : List String) (fname : String)
    (hod : Nat) (openOk : Bool) : List String :=
  if 10 < hod then
    let staged := fname :: workdirFiles
    if openOk then staged.erase fname
    else staged
  else workdirFiles

/-- `CompMBChla.py` lines 221-231 (identical in the other `Comp*` daily
composite scripts): the accumulation loop opens each manifest file with a
bare `Dataset(fName)` — no `try`/`except` — so a read failure propagates
out of the loop.  `rd` is the external file reader
(`readGrid`), which may fail. -/
def compLoop (rd : String → Except Unit (GridIdx → ℚ))
    (files : List String) (st : (GridIdx → ℚ) × (GridIdx → Nat)) :
    Except Unit ((GridIdx → ℚ) × (GridIdx → Nat)) :=
  match files with
  | [] => Except.ok st
  | f :: rest =>
    match rd f with
    | Except.error e => Except.error e
    | Except.ok g => compLoop rd rest (meanVar chlaValid st g)

/-- `makeChla1daynewMB.py` lines 229-315: the swath loop wraps the open in
`try`/`except IOError` and `continue`s past an unreadable granule,
accumulating the filtered rows of readable granules into the running
point cloud. -/
def swathLoop (rd : String → Except Unit (List ChlaRow))
    (files : List String) (pc : List ChlaRow) :
    Except Unit (List ChlaRow) :=
  match files with
  | [] => Except.ok pc
  | f :: rest =>
    match rd f with
    | Except.error _ => swathLoop rd rest pc
    | Except.ok rows =>
      swathLoop rd rest
        (pc ++ chlaFilterChain MB.lonmin MB.lonmax MB.latmin MB.latmax rows)

/-- A concrete reader for which the first manifest file is unreadable and
the second reads as an all-ones grid. -/
def rdOneBadFile (f : String) : Except Unit (GridIdx → ℚ) :=
  if f = "MB2025001_120000_chla.nc" then Except.error ()
  else Except.ok (fun _ => 1)

theorem toOrdinal_ordinalToYearDoy (n : Nat) (h : 1 ≤ n) :
    toOrdinal (ordinalToYearDoy n).1 (ordinalToYearDoy n).2 = n := by
  simp only [ordinalToYearDoy]
  generalize hA : (n - 1) / 146097 = A
  generalize hB : (n - 1) % 146097 / 36524 = B
  generalize hC : (n - 1) % 146097 % 36524 / 1461 = C
  generalize hD : (n - 1) % 146097 % 36524 % 1461 / 365 = D
  generalize hU : (n - 1) % 146097 % 36524 % 1461 % 365 = U
  have hsum : n - 1 = 146097 * A + 36524 * B + 1461 * C + 365 * D + U := by omega
  have hBle : B ≤ 4 := by omega
  have hCle : C ≤ 24 := by omega
  have hDle : D ≤ 4 := by omega
  have hUlt : U ≤ 364 := by omega
  have hB4 : B = 4 → C = 0 ∧ D = 0 ∧ U = 0 := by omega
  have hD4 : D = 4 → U = 0 ∧ C ≤ 23 ∧ B ≤ 3 := by omega
  split
  · rename_i hcond
    simp only [Bool.or_eq_true, beq_iff_eq] at hcond
    dsimp only
    simp only [toOrdinal, daysBeforeYear]
    rcases hcond with hd4 | hb4
    · obtain ⟨hU0, hC23, hB3⟩ := hD4 hd4
      subst hd4
      have hE : A * 400 + B * 100 + C * 4 + 4 + 1 - 1 - 1
          = A * 400 + B * 100 + C * 4 + 3 := by omega
      rw [hE]
      have h4 : (A * 400 + B * 100 + C * 4 + 3) / 4 = A * 100 + B * 25 + C := by
        omega
      have h100 : (A * 400 + B * 100 + C * 4 + 3) / 100 = A * 4 + B := by omega
      have h400 : (A * 400 + B * 100 + C * 4 + 3) / 400 = A := by omega
      rw [h4, h100, h400]
      omega
    · obtain ⟨hC0, hD0, hU0⟩ := hB4 hb4
      subst hb4; subst hC0; subst hD0
      have hE : A * 400 + 4 * 100 + 0 * 4 + 0 + 1 - 1 - 1 = A * 400 + 399 := by
        omega
      rw [hE]
      have h4 : (A * 400 + 399) / 4 = A * 100 + 99 := by omega
      have h100 : (A * 400 + 399) / 100 = A * 4 + 3 := by omega
      have h400 : (A * 400 + 399) / 400 = A := by omega
      rw [h4, h100, h400]
      omega
  · rename_i hcond
    simp only [Bool.or_eq_true, beq_iff_eq, not_or] at hcond
    obtain ⟨hDne, hBne⟩ := hcond
    have hD3 : D ≤ 3 := by omega
    have hB3 : B ≤ 3 := by omega
    dsimp only
    simp only [toOrdinal, daysBeforeYear]
    have hE : A * 400 + B * 100 + C * 4 + D + 1 - 1
        = A * 400 + B * 100 + C * 4 + D := by omega
    rw [hE]
    have h4 : (A * 400 + B * 100 + C * 4 + D) / 4 = A * 100 + B * 25 + C := by
      omega
    have h100 : (A * 400 + B * 100 + C * 4 + D) / 100 = A * 4 + B := by omega
    have h400 : (A * 400 + B * 100 + C * 4 + D) / 400 = A := by omega
    rw [h4, h100, h400]
    omega

set_option maxRecDepth 8000

/-- Day-of-year validity of the inverse ordinal conversion: the
day-of-year is at least 1 and at most the length of the produced year
(366 exactly on the December-31-of-a-leap-year branch). -/
theorem ordinalToYearDoy_doy_bounds (n : Nat) :
    1 ≤ (ordinalToYearDoy n).2 ∧
      (ordinalToYearDoy n).2 ≤
        (if isleap (ordinalToYearDoy n).1 then 366 else 365) := by
  simp only [ordinalToYearDoy]
  split
  · rename_i hcond
    simp only [Bool.or_eq_true, beq_iff_eq] at hcond
    dsimp only
    refine ⟨by omega, ?_⟩
    split
    · omega
    · rename_i hfalse
      exfalso
      simp only [isleap, Bool.and_eq_true, Bool.or_eq_true, beq_iff_eq,
        Bool.not_eq_true', beq_eq_false_iff_ne] at hfalse
      omega
  · dsimp only
    refine ⟨by omega, ?_⟩
    split <;> omega

/-- C7: for every case (a) request (end year, end day-of-year, length N)
whose start does not run off the calendar, the resolver's start date
(`compStartDate`, from `CompMBChla.py` lines 164-173) equals the calendar
date of the end day minus (N−1) days — its ordinal is the end ordinal
minus (N−1) — with start year and start day-of-year exposed explicitly
and the day-of-year valid for the start year; in particular end year
2025, end day 005, interval 5 yields (2025, 1), and end year 2025, end
day 003, interval 5 yields (2024, 365). -/
theorem comp_start_date_resolution (endYear endDoy interval : Nat)
    (hrange : interval - 1 < toOrdinal endYear endDoy) :
    toOrdinal (compStartDate endYear endDoy interval).1
        (compStartDate endYear endDoy interval).2
      = toOrdinal endYear endDoy - (interval - 1)
    ∧ 1 ≤ (compStartDate endYear endDoy interval).2
    ∧ (compStartDate endYear endDoy interval).2
      ≤ (if isleap (compStartDate endYear endDoy interval).1 then 366 else 365)
    ∧ compStartDate 2025 5 5 = (2025, 1)
    ∧ compStartDate 2025 3 5 = (2024, 365) := by
  refine ⟨?_, ?_, ?_, by decide, by decide⟩
  · exact toOrdinal_ordinalToYearDoy _ (by omega)
  · exact (ordinalToYearDoy_doy_bounds _).1
  · exact (ordinalToYearDoy_doy_bounds _).2

/-- Witness for `comp_start_date_resolution` at the spec's concrete
example (end year 2025, end day 5, interval 5). -/
theorem comp_start_date_resolution_witness :
    (5 : Nat) - 1 < toOrdinal 2025 5
    ∧ toOrdinal (compStartDate 2025 5 5).1 (compStartDate 2025 5 5).2
        = toOrdinal 2025 5 - (5 - 1) :=
  ⟨by decide, (comp_start_date_resolution 2025 5 5 (by decide)).1⟩

/-- C1 (code evaluation at the failing input): in `CompMBChlamday.py` a
wrapping case (b) request — end year 2025, end day-of-year 3, start
day-of-year 360 — produces a first sub-range whose very first glob is the
END year's pattern `MB2025360*chla.nc` searched in the unchanged data
directory (because line 160 sets `startYearC = endyearC`, the
`dataDir.replace` is a no-op), not the previous year's pattern
`MB2024360*chla.nc` in a 2024 directory as the claim requires. -/
theorem mday_wrap_first_subrange_uses_end_year :
    (mdayFilePlan "/ERDData1/modisa/data/modisgf/2025/mday/" "2025"
        3 360 "chla").head?
      = some { dir := "/ERDData1/modisa/data/modisgf/2025/mday/",
               pattern := "MB2025360*chla.nc" } := by decide

/-- C2 (code evaluation at the failing input): the wraparound branch's
last start-year day is computed by `if (isleap):` on the function object,
so `endday` is 366 for the non-leap start year 2025 even though
`isleap 2025` is false. -/
theorem endday_ignores_start_year_leap :
    endday 2025 = 366 ∧ isleap 2025 = false := by decide

/-- C3 (code evaluation at the failing input): a request with start
day-of-year equal to end day-of-year (both 100, end year 2025) fails the
`if (endDoy > startDoy)` test and takes the wraparound branch, so the
script searches 367 day patterns (days 100..366 plus days 1..100) instead
of the single day the claim requires. -/
theorem mday_equal_start_end_takes_wraparound_branch :
    (mdayFilePlan "/ERDData1/modisa/data/modisgf/2025/mday/" "2025"
        100 100 "chla").length = 367 := by decide

/-- C4 (code evaluation at the failing input): the Day N SST filter chain
of `makeSST1daynewMB.py` (lines 402-407) has no `>= latmin` step, so a
pixel row with latitude −50 — below the region bound latmin = −45 —
survives the whole chain and is appended to the point cloud; the Day N+1
chain of the same script (lines 488-494) does remove it. -/
theorem sst_dayN_filter_keeps_row_below_latmin :
    sstDayNFilter [{ lon := 200, lat := -50, sst := 10, qual := 0 }]
      = [{ lon := 200, lat := -50, sst := 10, qual := 0 }]
    ∧ (-50 : ℚ) < MB.latmin
    ∧ sstDayN1Filter [{ lon := 200, lat := -50, sst := 10, qual := 0 }]
      = [] := by decide

/-- C5 counterexample: a staged swath whose `Dataset` open raises
`IOError` is NOT removed — the `except IOError: ... continue` path in
`makeChla1daynewMB.py` lines 244-248 skips the `safe_remove` at line 315,
so the staged copy is still in the working directory after the file's
handling completes. -/
theorem staged_copy_remains_on_open_error :
    processSwath [] "AQUA_MODIS.20250323T120000.L2.OC.NRT.nc" 12 false
      = ["AQUA_MODIS.20250323T120000.L2.OC.NRT.nc"] := by decide

/-- C5 amended: a staged swath file whose open succeeds is removed after
processing (the working directory is restored), while a staged swath
whose open raises `IOError` is skipped via `continue` and its staged copy
remains in the working directory. -/
theorem staged_copy_removed_iff_open_ok (wd : List String) (f : String)
    (hod : Nat) (h : 10 < hod) :
    processSwath wd f hod true = wd
    ∧ processSwath wd f hod false = f :: wd := by
  simp [processSwath, h, List.erase_cons_head]

/-- Witness for `staged_copy_removed_iff_open_ok` at a concrete staged
file. -/
theorem staged_copy_removed_iff_open_ok_witness :
    (10 : Nat) < 12
    ∧ processSwath ["other.nc"] "AQUA_MODIS.20250324T010000.L2.OC.NRT.nc"
        12 true = ["other.nc"] :=
  ⟨by decide,
   (staged_copy_removed_iff_open_ok ["other.nc"]
     "AQUA_MODIS.20250324T010000.L2.OC.NRT.nc" 12 (by decide)).1⟩

/-- C6 counterexample: the daily-composite accumulation loop
(`CompMBChla.py` lines 221-231) opens each manifest file with a bare
`Dataset(fName)`, so with a manifest whose first daily gridded file is
unreadable the whole job aborts with the propagated error instead of
skipping the file and continuing. -/
theorem comp_loop_aborts_on_unreadable_file :
    compLoop rdOneBadFile
        ["MB2025001_120000_chla.nc", "MB2025002_120000_chla.nc"]
        (initMean, initNum)
      = Except.error () := by rfl

/-- C6 amended: per-file error containment holds for the swath-granule
path: the swath loop (`try`/`except IOError` with `continue`) never
propagates a file-open error — it always completes, its result being the
fold that accumulates the filtered rows of exactly the readable granules
and skips the unreadable ones.  (For daily gridded files in the `Comp*`
scripts the open is unguarded and an unreadable file aborts the job, as
`comp_loop_aborts_on_unreadable_file` shows.) -/
theorem swath_loop_contains_file_errors
    (rd : String → Except Unit (List ChlaRow)) (files : List String)
    (pc : List ChlaRow) :
    swathLoop rd files pc
      = Except.ok (files.foldl (fun acc f =>
          match rd f with
          | Except.error _ => acc
          | Except.ok rows =>
            acc ++ chlaFilterChain MB.lonmin MB.lonmax MB.latmin MB.latmax rows)
          pc) := by
  induction files generalizing pc with
  | nil => rfl
  | cons f rest ih =>
    simp only [swathLoop, List.foldl]
    cases hrf : rd f with
    | error e => exact ih pc
    | ok rows => exact ih _

/-- C8: the per-axis region overlap test of the swath scripts accepts
exactly when the target minimum is strictly above the swath minimum and
at most the swath maximum, or the swath minimum lies within
`[targetMin, targetMax]`; in particular longitude bounds [319, 321] are
accepted against region bounds [120, 320] and bounds [321, 330] are
rejected. -/
theorem region_overlap_accept_iff :
    (∀ swMin swMax tMin tMax : ℚ,
        goodLonAccept swMin swMax tMin tMax = true
          ↔ specOverlapAccept swMin swMax tMin tMax)
    ∧ goodLonAccept 319 321 120 320 = true
    ∧ goodLonAccept 321 330 120 320 = false := by
  refine ⟨fun a b c d => ?_, by decide, by decide⟩
  simp [goodLonAccept, specOverlapAccept]

/-- C9: after finalization every cell with zero count is masked and its
filled value is exactly −9999999.0, every cell with nonzero count is
unmasked (and keeps its accumulated value), and this holds for any
(sum, count) state — in particular the state obtained from an empty
manifest (no accumulated grids) finalizes to a fully masked grid. -/
theorem finalize_mask_and_fill (mean : GridIdx → ℚ) (num : GridIdx → Nat)
    (i : GridIdx) :
    ((finalizeComposite mean num i).2 = true ↔ num i = 0)
    ∧ (num i = 0 → finalizeComposite mean num i = ((-9999999 : ℚ), true))
    ∧ (num i ≠ 0 → finalizeComposite mean num i = (mean i, false))
    ∧ (∀ j : GridIdx,
        finalizeComposite (accumGrids chlaValid [] (initMean, initNum)).1
            (accumGrids chlaValid [] (initMean, initNum)).2 j
          = ((-9999999 : ℚ), true)) := by
  refine ⟨?_, ?_, ?_, fun j => rfl⟩
  · unfold finalizeComposite
    by_cases h : num i = 0 <;> simp [h]
  · intro h
    unfold finalizeComposite
    simp [h]
  · intro h
    unfold finalizeComposite
    simp [h]

/-- Witness for `finalize_mask_and_fill`: a zero-count cell of a concrete
state is filled with exactly −9999999. -/
theorem finalize_mask_and_fill_witness :
    (fun _ : GridIdx => (0 : Nat)) ((0 : Fin 4401), (0 : Fin 8001)) = 0
    ∧ finalizeComposite (fun _ => 7) (fun _ => 0)
        ((0 : Fin 4401), (0 : Fin 8001)) = ((-9999999 : ℚ), true) :=
  ⟨rfl,
   (finalize_mask_and_fill (fun _ => 7) (fun _ => 0)
     ((0 : Fin 4401), (0 : Fin 8001))).2.1 rfl⟩

/-- Absorption of the unset-navigation sanity filter: filtering by
`lon > -400` before filtering by `lon >= m` changes nothing when
`-400 < m`. -/
theorem filter_lon_sanity_absorb (m : ℚ) (hm : (-400 : ℚ) < m)
    (l : List ChlaRow) :
    (l.filter (fun r => decide (r.lon > -400))).filter
        (fun r => decide (r.lon ≥ m))
      = l.filter (fun r => decide (r.lon ≥ m)) := by
  induction l with
  | nil => rfl
  | cons r rest ih =>
    by_cases h : m ≤ r.lon
    · have h4 : (-400 : ℚ) < r.lon := lt_of_lt_of_le hm h
      simp [List.filter_cons, ih, h, h4]
    · by_cases h4 : (-400 : ℚ) < r.lon <;>
        simp [List.filter_cons, ih, h, h4]

/-- C10: for the region longitude minima that occur in the scripts (120
for MB, 205 for MW), the `lon > -400` sanity filter is redundant:
composed with the following `lon >= lonmin` region filter it yields
exactly the same rows as the region filter alone, and consequently the
whole per-pixel chain with the sanity step equals the chain without
it. -/
theorem lon_sanity_filter_redundant (lonmin lonmax latmin latmax : ℚ)
    (hregion : lonmin = MB.lonmin ∨ lonmin = MW.lonmin)
    (rows : List ChlaRow) :
    ((rows.filter (fun r => decide (r.chla > 0))).filter
          (fun r => decide (r.lon > -400))).filter
          (fun r => decide (r.lon ≥ lonmin))
      = (rows.filter (fun r => decide (r.chla > 0))).filter
          (fun r => decide (r.lon ≥ lonmin))
    ∧ chlaFilterChain lonmin lonmax latmin latmax rows
      = chlaFilterChainNoSanity lonmin lonmax latmin latmax rows := by
  have hm : (-400 : ℚ) < lonmin := by
    rcases hregion with h | h <;> rw [h] <;> norm_num [MB.lonmin, MW.lonmin]
  refine ⟨filter_lon_sanity_absorb lonmin hm _, ?_⟩
  unfold chlaFilterChain chlaFilterChainNoSanity
  rw [filter_lon_sanity_absorb lonmin hm]

/-- Witness for `lon_sanity_filter_redundant` at the MB region bounds on
a concrete row list. -/
theorem lon_sanity_filter_redundant_witness :
    ((120 : ℚ) = MB.lonmin ∨ (120 : ℚ) = MW.lonmin)
    ∧ chlaFilterChain 120 320 (-45) 65
        [{ lon := -10, lat := 0, chla := 1 }]
      = chlaFilterChainNoSanity 120 320 (-45) 65
        [{ lon := -10, lat := 0, chla := 1 }] :=
  ⟨Or.inl (by decide),
   (lon_sanity_filter_redundant 120 320 (-45) 65 (Or.inl (by decide))
     [{ lon := -10, lat := 0, chla := 1 }]).2⟩
